import Mathlib

/-! go-mysqldump: a shallow embedding of the dump engine.

The development embeds `dump.go` (the `Dumper` entry points, the table and
schema extractors, the value serialiser and the dump template),
`mysqldump.go` (`Register`, `exists`) and `sav/pump.go` (`PumpNew`, `Pump`).

The database, the file system, the clock and the zip writer are external
collaborators.  They are modelled as deterministic oracles whose answers may
depend on the whole history of operations issued so far; every function of
the embedding returns the history it leaves behind, so that the order of the
operations is part of the result.

Conventions of the embedding:

* a Go result `(value, error)` is a pair `value × Option Error` where the
  source can return both, and an `Except` where it returns one or the other;
* a row cursor is the finite list of the rows it delivers;
* a file is its content; closing a file or a cursor changes no content, and
  the deferred `f.Close()` of `Dump` and `DumpTables` is therefore left out,
  as are the log lines of `PumpNew`;
* `template.Parse(tmpl)` succeeds on the constant `tmpl`, whose parse is
  `tmpl` below; `Execute` renders the text and writes it to the file, and
  returns the error of the write when the file does not take all of it.
-/

namespace Mysqldump

/-! ## Data model -/

/-- Go `error` values.  `new` is `errors.New` as used in the sources, `ext` is
an error produced by a collaborator (driver, file system, zip writer) and
`scanArgs` is the arity error of `database/sql` when the number of scan
destinations differs from the number of columns of the row. -/
inductive Error where
  | new (msg : String)
  | ext (msg : String)
  | scanArgs (columns dests : Nat)
  deriving DecidableEq, Repr

/-- The `sql.NullString` of `database/sql`. -/
structure NullString where
  String : String
  Valid : Bool
  deriving DecidableEq, Repr

/-- The `Table` struct of `dump.go`. -/
structure Table where
  Name : String
  SQL : String
  Values : String
  deriving DecidableEq, Repr

/-- The `Dump` struct of `dump.go`. -/
structure Dump where
  DumpVersion : String
  ServerVersion : String
  Tables : List Table
  CompleteTime : String
  Database : String
  DbDrop : String
  deriving DecidableEq, Repr

/-- The constant `version` of `dump.go`. -/
def version : String := "0.2.0"

/-! ## The database collaborator -/

/-- Operations issued on the connection and on a row cursor. -/
inductive DbOp where
  | queryRow (q : String)
  | query (q : String)
  | columns
  | next
  | scan
  | err
  | close
  deriving DecidableEq, Repr

/-- A driver row: one cell per column, `none` being SQL NULL. -/
abbrev RawRow := List (Option String)

/-- The cursor returned by `db.Query`: the answer of `rows.Columns()`, the rows
that `rows.Next()` delivers (each with the outcome of the driver side of
`rows.Scan`) and the final answer of `rows.Err()`. -/
structure Rows where
  columns : Except Error (List String)
  data : List (Except Error RawRow)
  err : Option Error

/-- The connection: answers may depend on the history of operations. -/
structure DB where
  QueryRow : List DbOp → String → Except Error RawRow
  Query : List DbOp → String → Except Error Rows

/-- Scanning a cell into a `sql.NullString` destination. -/
def scanNullString (c : Option String) : NullString :=
  match c with
  | none => { String := "", Valid := false }
  | some s => { String := s, Valid := true }

/-- Scanning a cell into a `*sql.NullString` destination (a pointer to a
pointer is handed to `Scan`): NULL leaves the pointer nil, any other value
allocates a valid `NullString`. -/
def scanNullStringPtr (c : Option String) : Option NullString :=
  match c with
  | none => none
  | some s => some { String := s, Valid := true }

/-! ## `strings.Join` and the value serialiser -/

/-- Go `strings.Join`. -/
def stringsJoin : List String → String → String
  | [], _ => ""
  | [a], _ => a
  | a :: b :: rest, sep => a ++ sep ++ stringsJoin (b :: rest) sep

/-- The `dataStrings` slice built by the inner loop of `createTableValues`:
the string of a non-nil valid value, the zero value `""` otherwise. -/
def dataStrings (data : List (Option NullString)) : List String :=
  data.map fun value =>
    match value with
    | some v => if v.Valid then v.String else ""
    | none => ""

/-- The tuple literal appended to `data_text` for one scanned row. -/
def rowTuple (data : List (Option NullString)) : String :=
  "('" ++ stringsJoin (dataStrings data) "','" ++ "')"

/-! ## Schema and table extraction (`dump.go`) -/

/-- `createTableSQL` of `dump.go`. -/
def createTableSQL (db : DB) (name : String) (h : List DbOp) :
    (String × Option Error) × List DbOp :=
  let q := "SHOW CREATE TABLE " ++ name
  let h1 := h ++ [DbOp.queryRow q]
  match db.QueryRow h q with
  | .error e => (("", some e), h1)
  | .ok [table_return, table_sql] =>
    if (scanNullString table_return).String != name then
      (("", some (Error.new "Returned table is not the same as requested table")), h1)
    else
      (((scanNullString table_sql).String, none), h1)
  | .ok r => (("", some (Error.scanArgs r.length 2)), h1)

/-- The `for rows.Next()` loop of `createTableValues`: `data_text` is the
accumulator; the result is the final `data_text` or the error of `Scan`. -/
def readRows (ncols : Nat) :
    List (Except Error RawRow) → List String → List DbOp →
      Except Error (List String) × List DbOp
  | [], data_text, h => (.ok data_text, h ++ [DbOp.next])
  | r :: rest, data_text, h =>
    let h1 := h ++ [DbOp.next, DbOp.scan]
    match r with
    | .error e => (.error e, h1)
    | .ok raw =>
      if raw.length != ncols then (.error (Error.scanArgs raw.length ncols), h1)
      else readRows ncols rest (data_text ++ [rowTuple (raw.map scanNullStringPtr)]) h1

/-- `createTableValues` of `dump.go`.  The deferred `rows.Close()` is the last
operation on every path that obtained a cursor. -/
def createTableValues (db : DB) (name : String) (h : List DbOp) :
    (String × Option Error) × List DbOp :=
  let q := "SELECT * FROM " ++ name
  let h1 := h ++ [DbOp.query q]
  match db.Query h q with
  | .error e => (("", some e), h1)
  | .ok rows =>
    let h2 := h1 ++ [DbOp.columns]
    match rows.columns with
    | .error e => (("", some e), h2 ++ [DbOp.close])
    | .ok columns =>
      if columns.length == 0 then
        (("", some (Error.new ("No columns in table " ++ name ++ "."))), h2 ++ [DbOp.close])
      else
        match readRows columns.length rows.data [] h2 with
        | (.error e, h3) => (("", some e), h3 ++ [DbOp.close])
        | (.ok data_text, h3) =>
          ((stringsJoin data_text ",", rows.err), h3 ++ [DbOp.err, DbOp.close])

/-- `createTable` of `dump.go`: `(nil, err)` is `Except.error`, `(t, nil)` is
`Except.ok`. -/
def createTable (db : DB) (name : String) (h : List DbOp) :
    Except Error Table × List DbOp :=
  match createTableSQL db name h with
  | ((_, some e), h1) => (.error e, h1)
  | ((sql, none), h1) =>
    match createTableValues db name h1 with
    | ((_, some e), h2) => (.error e, h2)
    | ((values, none), h2) => (.ok { Name := name, SQL := sql, Values := values }, h2)

/-- `getServerVersion` of `dump.go`. -/
def getServerVersion (db : DB) (h : List DbOp) : (String × Option Error) × List DbOp :=
  let h1 := h ++ [DbOp.queryRow "SELECT version()"]
  match db.QueryRow h "SELECT version()" with
  | .error e => (("", some e), h1)
  | .ok [server_version] => (((scanNullString server_version).String, none), h1)
  | .ok r => (("", some (Error.scanArgs r.length 1)), h1)

/-- `getDatabase` of `dump.go`. -/
def getDatabase (db : DB) (h : List DbOp) : (String × Option Error) × List DbOp :=
  let h1 := h ++ [DbOp.queryRow "SELECT database()"]
  match db.QueryRow h "SELECT database()" with
  | .error e => (("", some e), h1)
  | .ok [server_database] => (((scanNullString server_database).String, none), h1)
  | .ok r => (("", some (Error.scanArgs r.length 1)), h1)

/-- The `for rows.Next()` loop of `getTables` together with the final
`return tables, rows.Err()`; `final` is the answer of `rows.Err()`. -/
def scanTables (final : Option Error) :
    List (Except Error RawRow) → List String → List DbOp →
      (List String × Option Error) × List DbOp
  | [], tables, h => ((tables, final), h ++ [DbOp.next, DbOp.err])
  | r :: rest, tables, h =>
    let h1 := h ++ [DbOp.next, DbOp.scan]
    match r with
    | .error e => ((tables, some e), h1)
    | .ok [table] => scanTables final rest (tables ++ [(scanNullString table).String]) h1
    | .ok raw => ((tables, some (Error.scanArgs raw.length 1)), h1)

/-- `getTables` of `dump.go`. -/
def getTables (db : DB) (h : List DbOp) : (List String × Option Error) × List DbOp :=
  let h1 := h ++ [DbOp.query "SHOW TABLES"]
  match db.Query h "SHOW TABLES" with
  | .error e => (([], some e), h1)
  | .ok rows =>
    match scanTables rows.err rows.data [] h1 with
    | (r, h2) => (r, h2 ++ [DbOp.close])

/-- The loop `for _, name := range tables` shared by `Dump` and `DumpTables`:
`acc` is `data.Tables`; the first failing `createTable` ends the loop with its
error. -/
def createTables (db : DB) :
    List String → List Table → List DbOp → Except Error (List Table) × List DbOp
  | [], acc, h => (.ok acc, h)
  | name :: rest, acc, h =>
    match createTable db name h with
    | (.ok t, h1) => createTables db rest (acc ++ [t]) h1
    | (.error e, h1) => (.error e, h1)

/-! ## The dump template -/

/-- Actions of the template inside `range .Tables` that need no nesting. -/
inductive TableLeaf where
  | text (s : String)
  | Name
  | SQL
  | Values
  deriving DecidableEq, Repr

/-- Actions of the template inside `range .Tables`. -/
inductive TableNode where
  | leaf (l : TableLeaf)
  | ifValues (body : List TableLeaf)
  deriving Repr

/-- Top-level actions of the template. -/
inductive DumpNode where
  | text (s : String)
  | DumpVersion
  | ServerVersion
  | DbDrop
  | Database
  | CompleteTime
  | rangeTables (body : List TableNode)
  deriving Repr

/-- The part of the constant `tmpl` of `dump.go` between `range .Tables` and
its `end`, parsed. -/
def tableTmpl : List TableNode :=
  [ .leaf (.text "\n--\n-- Table structure for table "), .leaf .Name,
    .leaf (.text "\n--\n\nDROP TABLE IF EXISTS "), .leaf .Name, .leaf (.text ";\n"),
    .leaf .SQL, .leaf (.text ";\n"),
    .ifValues
      [ .text "\n--\n-- Dumping data for table ", .Name,
        .text "\n--\n\nLOCK TABLES ", .Name, .text " WRITE;\nINSERT INTO ", .Name,
        .text " VALUES ", .Values, .text ";\nUNLOCK TABLES;\n" ] ]

/-- The constant `tmpl` of `dump.go`, parsed. -/
def tmpl : List DumpNode :=
  [ .text "-- Go SQL Dump ", .DumpVersion,
    .text "\n--\n-- ------------------------------------------------------\n-- Server version\t",
    .ServerVersion, .text "\n", .DbDrop, .text "\n\nUSE ", .Database, .text ";\n",
    .rangeTables tableTmpl,
    .text "\n-- Dump completed on ", .CompleteTime, .text "\n" ]

/-- Sequential output of the pieces a template execution writes. -/
def concatAll : List String → String
  | [] => ""
  | s :: rest => s ++ concatAll rest

/-- Execution of a leaf action with dot bound to a table. -/
def execTableLeaf (t : Table) : TableLeaf → String
  | .text s => s
  | .Name => t.Name
  | .SQL => t.SQL
  | .Values => t.Values

/-- Execution of an action with dot bound to a table; a string is true in
`if` exactly when it is not empty. -/
def execTableNode (t : Table) : TableNode → String
  | .leaf l => execTableLeaf t l
  | .ifValues body =>
    if t.Values != "" then concatAll (body.map (execTableLeaf t)) else ""

/-- Execution of a top-level action with dot bound to the dump. -/
def execDumpNode (d : Dump) : DumpNode → String
  | .text s => s
  | .DumpVersion => d.DumpVersion
  | .ServerVersion => d.ServerVersion
  | .DbDrop => d.DbDrop
  | .Database => d.Database
  | .CompleteTime => d.CompleteTime
  | .rangeTables body =>
    concatAll (d.Tables.map fun t => concatAll (body.map (execTableNode t)))

/-- The text written by `t.Execute(f, data)` for a parsed template. -/
def execute (nodes : List DumpNode) (d : Dump) : String :=
  concatAll (nodes.map (execDumpNode d))

/-! ## The file system and the clock -/

/-- The file system: the content of every present path; the failure (if any)
that `os.Open`, `Stat` and `os.Create` report for a path; and, for a path that
cannot take every write, the number of characters it still accepts together
with the error reported by the write that exceeds it. -/
structure FS where
  files : String → Option String
  openErr : String → Option Error
  statErr : String → Option Error
  createErr : String → Option Error
  writeErr : String → Option (Nat × Error)

/-- Go `os.Open`: fails on an absent path, and on a present path that the
caller cannot open. -/
def osOpen (fs : FS) (p : String) : Option Error :=
  match fs.files p with
  | none => some (Error.ext "no such file or directory")
  | some _ => fs.openErr p

/-- `exists` of `mysqldump.go`: true when `os.Open` and then `Stat` succeed
(the `os.FileInfo` it also returns is not used by the entry points). -/
def existsFile (fs : FS) (p : String) : Bool :=
  match osOpen fs p with
  | some _ => false
  | none =>
    match fs.statErr p with
    | some _ => false
    | none => true

/-- Go `os.Create`: on success the path holds an empty file afterwards (an
existing file is truncated); on failure the file system is unchanged. -/
def osCreate (fs : FS) (p : String) : Option Error × FS :=
  match fs.createErr p with
  | some e => (some e, fs)
  | none => (none, { fs with files := fun q => if q = p then some "" else fs.files q })

/-- Writing `s` through the handle of the file at `p`: the text is appended;
when the path accepts fewer characters than `s` has, only that many are
appended and the write reports its error. -/
def osWrite (fs : FS) (p : String) (s : String) : Option Error × FS :=
  match fs.writeErr p with
  | none =>
    (none, { fs with files := fun q =>
      if q = p then some ((fs.files p).getD "" ++ s) else fs.files q })
  | some (n, e) =>
    if s.length ≤ n then
      (none, { fs with files := fun q =>
        if q = p then some ((fs.files p).getD "" ++ s) else fs.files q })
    else
      let part := String.mk (s.data.take n)
      (some e, { fs with files := fun q =>
        if q = p then some ((fs.files p).getD "" ++ part) else fs.files q })

/-- The clock and the path library: `time.Now().Format(layout)`,
`time.Now().String()` and `path.Join`. -/
structure Env where
  timeFormat : String → String
  timeString : String
  pathJoin : String → String → String

/-! ## The `Dumper` entry points (`dump.go`) -/

/-- Modelled from the spec: the declaration of the `Dumper` struct is not among
the sources; these are the fields that `Dump` and `DumpTables` read and write
(the connection `d.db` is passed separately). -/
structure Dumper where
  FileName : String
  dir : String
  format : String
  DropDB : Bool

/-- The file name `d.FileName` after the first statement of `Dump` and
`DumpTables`. -/
def Dumper.fileName (env : Env) (d : Dumper) : String :=
  if d.FileName == "" then env.pathJoin d.dir (env.timeFormat d.format ++ ".sql")
  else d.FileName

/-- `Dumper.Dump` of `dump.go`.  The result is the returned pair, the file
system and the history of database operations.  `t.Execute(f, data)` writes
the rendered text through the handle of the created file and returns the error
of the write, if any. -/
def Dumper.Dump (env : Env) (db : DB) (d : Dumper) (fs : FS) (h : List DbOp) :
    (String × Option Error) × FS × List DbOp :=
  let fileName := d.fileName env
  if existsFile fs fileName then
    ((fileName, some (Error.new ("Dump '" ++ fileName ++ "' already exists."))), fs, h)
  else
    match osCreate fs fileName with
    | (some e, fs1) => ((fileName, some e), fs1, h)
    | (none, fs1) =>
      match getServerVersion db h with
      | ((_, some e), h1) => ((fileName, some e), fs1, h1)
      | ((serverVersion, none), h1) =>
        match getDatabase db h1 with
        | ((_, some e), h2) => ((fileName, some e), fs1, h2)
        | ((database, none), h2) =>
          let dbDrop :=
            if d.DropDB then
              "DROP DATABASE IF EXISTS " ++ database ++ ";\nCREATE DATABASE " ++ database ++
                ";SET FOREIGN_KEY_CHECKS=0;"
            else ""
          match getTables db h2 with
          | ((_, some e), h3) => ((fileName, some e), fs1, h3)
          | ((tables, none), h3) =>
            match createTables db tables [] h3 with
            | (.error e, h4) => ((fileName, some e), fs1, h4)
            | (.ok ts, h4) =>
              let data : Mysqldump.Dump :=
                { DumpVersion := version, ServerVersion := serverVersion, Tables := ts,
                  CompleteTime := env.timeString, Database := database, DbDrop := dbDrop }
              match osWrite fs1 fileName (execute tmpl data) with
              | (some e, fs2) => ((fileName, some e), fs2, h4)
              | (none, fs2) => ((fileName, none), fs2, h4)

/-- `Dumper.DumpTables` of `dump.go`. -/
def Dumper.DumpTables (env : Env) (db : DB) (d : Dumper) (tables : List String)
    (fs : FS) (h : List DbOp) : (String × Option Error) × FS × List DbOp :=
  let fileName := d.fileName env
  if existsFile fs fileName then
    ((fileName, some (Error.new ("Dump '" ++ fileName ++ "' already exists."))), fs, h)
  else
    match osCreate fs fileName with
    | (some e, fs1) => ((fileName, some e), fs1, h)
    | (none, fs1) =>
      match getServerVersion db h with
      | ((_, some e), h1) => ((fileName, some e), fs1, h1)
      | ((serverVersion, none), h1) =>
        match getDatabase db h1 with
        | ((_, some e), h2) => ((fileName, some e), fs1, h2)
        | ((database, none), h2) =>
          match createTables db tables [] h2 with
          | (.error e, h3) => ((fileName, some e), fs1, h3)
          | (.ok ts, h3) =>
            let data : Mysqldump.Dump :=
              { DumpVersion := version, ServerVersion := serverVersion, Tables := ts,
                CompleteTime := env.timeString, Database := database, DbDrop := "" }
            match osWrite fs1 fileName (execute tmpl data) with
            | (some e, fs2) => ((fileName, some e), fs2, h3)
            | (none, fs2) => ((fileName, none), fs2, h3)

/-! ## `Register` (`mysqldump.go`) and `PumpNew` (`sav/pump.go`) -/

/-- Modelled from the spec: the declaration of the `Data` struct is not among
the sources; these are the fields that `Register` and `PumpNew` set.  A writer
(`Out`, `ZFile`) is represented by the path of the file it writes to. -/
structure Data where
  FileName : String
  GzipDump : Bool
  Out : Option String
  ZFile : Option String
  PrintTables : Bool
  DBName : String
  deriving DecidableEq, Repr

/-- The path `p` that `Register` computes before it tests the dump directory;
`a` holds the variadic arguments as printed by the verb `%v`. -/
def registerPath (env : Env) (a : List String) : String :=
  match a with
  | [] => env.pathJoin "/var/tmp/" ("sqldump-" ++ env.timeFormat "20060102-1504" ++ ".sql")
  | a0 :: _ => a0

/-- `Register` of `mysqldump.go`. -/
def Register (env : Env) (fs : FS) (gzipdump : Bool) (a : List String) :
    (Option Data × String × Option Error) × FS :=
  let p := registerPath env a
  if existsFile fs p then
    ((none, p, some (Error.new ("Dump '" ++ p ++ "' already exists."))), fs)
  else if gzipdump then
    let p := p ++ ".gz"
    match osCreate fs p with
    | (some e, fs1) => ((none, p, some e), fs1)
    | (none, fs1) =>
      ((some { FileName := p, GzipDump := true, Out := some p, ZFile := none,
               PrintTables := false, DBName := "" }, p, none), fs1)
  else
    match osCreate fs p with
    | (some e, fs1) => ((none, p, some e), fs1)
    | (none, fs1) =>
      ((some { FileName := "", GzipDump := false, Out := some p, ZFile := none,
               PrintTables := false, DBName := "" }, p, none), fs1)

/-- Go `strings.HasSuffix`. -/
def stringsHasSuffix (s suffix : String) : Bool :=
  suffix.data.isSuffixOf s.data

/-- The file name `name` that `PumpNew` computes before it tests the dump
directory. -/
def pumpName (env : Env) (name : String) : String :=
  let name :=
    if name == "" then env.pathJoin "/var/tmp/" ("sqlpump-" ++ env.timeFormat "20060102-1504")
    else name
  if !stringsHasSuffix name ".zip" then name ++ ".zip" else name

/-- `PumpNew` of `sav/pump.go`; `dbName` is the answer of `getDBName`, whose
error is discarded. -/
def PumpNew (env : Env) (fs : FS) (dbName : String) (name : String) :
    (Option Data × String × Option Error) × FS :=
  let name := pumpName env name
  if existsFile fs name then
    ((none, name, some (Error.new ("Dump '" ++ name ++ "' already exists."))), fs)
  else
    match osCreate fs name with
    | (some e, fs1) => ((none, name, some e), fs1)
    | (none, fs1) =>
      ((some { FileName := name, GzipDump := false, Out := none, ZFile := some name,
               PrintTables := true, DBName := dbName }, name, none), fs1)

/-! ## `Pump` (`sav/pump.go`) -/

/-- Operations that `Pump` issues on the connection and on the sink. -/
inductive PumpOp where
  | begin
  | rollback
  | updateServerVersion
  | headerExecute
  | getTables
  | zipCreate (name : String)
  | dump (arg : String)
  | zipFlush
  | pumpClose
  deriving DecidableEq, Repr

/-- The collaborators of `Pump` whose code is not among the sources
(`data.begin`, `meta.updateServerVersion`, `data.headerTmpl.Execute`,
`data.getTables`, `data.ZOut.Create`, `data.Dump`, `data.ZOut.Flush`): the
error each call returns, as a function of the operations issued before it.
`data.rollback` and `PumpClose` return nothing that `Pump` looks at. -/
structure PumpEnv where
  begin : List PumpOp → Option Error
  updateServerVersion : List PumpOp → Option Error
  headerExecute : List PumpOp → Option Error
  getTables : List PumpOp → List String × Option Error
  zipCreate : List PumpOp → String → Option Error
  dump : List PumpOp → String → Option Error
  zipFlush : List PumpOp → Option Error

/-- The loop `for _, t := range tables` of `Pump`. -/
def pumpTables (env : PumpEnv) : List String → List PumpOp → Option Error × List PumpOp
  | [], h => (none, h)
  | t :: rest, h =>
    let t := t ++ ".sql"
    let h1 := h ++ [PumpOp.zipCreate t]
    match env.zipCreate h t with
    | some e => (some e, h1)
    | none =>
      let h2 := h1 ++ [PumpOp.dump t]
      match env.dump h1 t with
      | some e => (some e, h2)
      | none =>
        let h3 := h2 ++ [PumpOp.zipFlush]
        match env.zipFlush h2 with
        | some e => (some e, h3)
        | none => pumpTables env rest h3

/-- The body of `Pump` after the `defer data.rollback()` statement. -/
def pumpBody (env : PumpEnv) (h : List PumpOp) : Option Error × List PumpOp :=
  let h1 := h ++ [PumpOp.updateServerVersion]
  match env.updateServerVersion h with
  | some e => (some e, h1)
  | none =>
    let h2 := h1 ++ [PumpOp.headerExecute]
    match env.headerExecute h1 with
    | some e => (some e, h2)
    | none =>
      let h3 := h2 ++ [PumpOp.getTables]
      match env.getTables h2 with
      | (_, some e) => (some e, h3)
      | (tables, none) =>
        match pumpTables env tables h3 with
        | (some e, h4) => (some e, h4)
        | (none, h4) => (none, h4 ++ [PumpOp.pumpClose])

/-- `Data.Pump` of `sav/pump.go`: the returned error and the operations
issued, in order.  The deferred rollback runs when the body returns. -/
def Pump (env : PumpEnv) (h : List PumpOp) : Option Error × List PumpOp :=
  let h1 := h ++ [PumpOp.begin]
  match env.begin h with
  | some e => (some e, h1)
  | none =>
    match pumpBody env h1 with
    | (r, h2) => (r, h2 ++ [PumpOp.rollback])

/-! ## The literal syntax the specification asks for -/

/-- The single quote character. -/
def quoteChar : Char := Char.ofNat 39

/-- Specification side: every single quote of the text is doubled. -/
def doubleQuotes : List Char → List Char
  | [] => []
  | c :: cs => if c = quoteChar then c :: c :: doubleQuotes cs else c :: doubleQuotes cs

/-- Specification side: the SQL string literal of a text, single quotes
escaped by doubling. -/
def sqlLiteral (s : String) : String :=
  "'" ++ String.mk (doubleQuotes s.data) ++ "'"

/-! ## Sample inputs -/

/-- A cursor over three columns holding the single row `1, NULL, O'Brien`. -/
def obrienRows : Rows :=
  { columns := .ok ["id", "name", "note"],
    data := [.ok [some "1", none, some "O'Brien"]],
    err := none }

/-- A cursor over three columns holding the rows `1, NULL, O'Brien` and
`2, Ann, NULL`. -/
def quotedPeopleRows : Rows :=
  { columns := .ok ["id", "name", "note"],
    data := [.ok [some "1", none, some "O'Brien"], .ok [some "2", some "Ann", none]],
    err := none }

/-- A cursor over three columns holding the rows `1, NULL, OBrien` and
`2, Ann, NULL`. -/
def peopleRows : Rows :=
  { columns := .ok ["id", "name", "note"],
    data := [.ok [some "1", none, some "OBrien"], .ok [some "2", some "Ann", none]],
    err := none }

/-- A cursor that reports no column and holds two rows. -/
def zeroColumnRows : Rows :=
  { columns := .ok [], data := [.ok [], .ok []], err := none }

/-- A cursor over one column that holds no row. -/
def emptyRows : Rows :=
  { columns := .ok ["id"], data := [], err := none }

/-- A connection that answers every `Query` with the given cursor and every
`QueryRow` with the given row. -/
def constDB (row : RawRow) (rows : Rows) : DB :=
  { QueryRow := fun _ _ => .ok row, Query := fun _ _ => .ok rows }

/-- A database `shop` with the tables `users` (two rows) and `orders` (no
row); `listing` is the answer of `SHOW TABLES`, and every statement about
another table fails. -/
def shopDB (listing : List String) : DB :=
  { QueryRow := fun _ q =>
      if q = "SELECT version()" then .ok [some "8.0.30"]
      else if q = "SELECT database()" then .ok [some "shop"]
      else if q = "SHOW CREATE TABLE users" then
        .ok [some "users", some "CREATE TABLE users (id int, name text, note text)"]
      else if q = "SHOW CREATE TABLE orders" then
        .ok [some "orders", some "CREATE TABLE orders (id int)"]
      else .error (Error.ext "table does not exist"),
    Query := fun _ q =>
      if q = "SHOW TABLES" then
        .ok { columns := .ok ["Tables_in_shop"],
              data := listing.map fun t => .ok [some t],
              err := none }
      else if q = "SELECT * FROM users" then .ok peopleRows
      else if q = "SELECT * FROM orders" then .ok emptyRows
      else .error (Error.ext "table does not exist") }

/-- A file system without any file, on which `os.Create` succeeds. -/
def emptyFS : FS :=
  { files := fun _ => none, openErr := fun _ => none, statErr := fun _ => none,
    createErr := fun _ => none, writeErr := fun _ => none }

/-- A file system without any file on which every file accepts twenty
characters only. -/
def fullFS : FS :=
  { emptyFS with writeErr := fun _ => some (20, Error.ext "no space left on device") }

/-- A clock stopped on the first of January 2024, and plain concatenation for
`path.Join`. -/
def fixedEnv : Env :=
  { timeFormat := fun _ => "20240101-0000",
    timeString := "2024-01-01 00:00:00 +0000 UTC",
    pathJoin := fun dir name => dir ++ name }

/-- A dumper writing to `/tmp/shop.sql`. -/
def shopDumper : Dumper :=
  { FileName := "/tmp/shop.sql", dir := "/tmp/", format := "20060102", DropDB := false }

/-- A file system whose only file is `/backup/shop.sql.gz`. -/
def gzFS : FS :=
  { files := fun p => if p = "/backup/shop.sql.gz" then some "previous dump" else none,
    openErr := fun _ => none, statErr := fun _ => none,
    createErr := fun _ => none, writeErr := fun _ => none }

/-- Collaborators of `Pump` that never fail; `tables` is the table listing. -/
def okPumpEnv (tables : List String) : PumpEnv :=
  { begin := fun _ => none,
    updateServerVersion := fun _ => none,
    headerExecute := fun _ => none,
    getTables := fun _ => (tables, none),
    zipCreate := fun _ _ => none,
    dump := fun _ _ => none,
    zipFlush := fun _ => none }

/-- Collaborators of `Pump` on a connection that refuses the transaction. -/
def noBeginPumpEnv : PumpEnv :=
  { okPumpEnv ["users"] with begin := fun _ => some (Error.ext "connection refused") }

/-! ## The value serialiser -/

/-- Quoting every element and joining with a comma is the same as joining with
`','` and quoting the whole. -/
theorem quote_join (xs : List String) (hne : xs ≠ []) :
    "'" ++ stringsJoin xs "','" ++ "'" = stringsJoin (xs.map fun s => "'" ++ s ++ "'") "," := by
  induction xs with
  | nil => exact absurd rfl hne
  | cons a rest ih =>
    cases rest with
    | nil => simp [stringsJoin]
    | cons b rest =>
      have ih2 := ih (by simp)
      have hsep : "','" = "'" ++ ("," ++ "'") := by decide
      simp only [stringsJoin, List.map] at ih2 ⊢
      rw [← ih2, hsep]
      simp only [String.append_assoc]

/-- The tuple literal of a non-empty row, field by field. -/
theorem rowTuple_eq (data : List (Option NullString)) (hne : data ≠ []) :
    rowTuple data = "(" ++ stringsJoin ((dataStrings data).map fun s => "'" ++ s ++ "'") "," ++ ")" := by
  have h := quote_join (dataStrings data) (by simpa [dataStrings] using hne)
  have h1 : "('" = "(" ++ "'" := by decide
  have h2 : "')" = "'" ++ ")" := by decide
  rw [← h]
  unfold rowTuple
  rw [h1, h2]
  simp only [String.append_assoc]

/-- Doubling leaves a text without single quote unchanged. -/
theorem doubleQuotes_of_not_mem (cs : List Char) (h : quoteChar ∉ cs) : doubleQuotes cs = cs := by
  induction cs with
  | nil => rfl
  | cons c cs ih =>
    have hc : c ≠ quoteChar := fun e => h (by simp [e])
    have hcs : quoteChar ∉ cs := fun m => h (List.mem_cons_of_mem _ m)
    simp [doubleQuotes, hc, ih hcs]

/-- The SQL literal of a text without single quote is the text between single
quotes. -/
theorem sqlLiteral_of_not_mem (s : String) (h : quoteChar ∉ s.data) :
    sqlLiteral s = "'" ++ s ++ "'" := by
  unfold sqlLiteral
  rw [doubleQuotes_of_not_mem _ h]

/-- Doubling never shortens a text. -/
theorem doubleQuotes_length_le (cs : List Char) : cs.length ≤ (doubleQuotes cs).length := by
  induction cs with
  | nil => simp [doubleQuotes]
  | cons c cs ih =>
    unfold doubleQuotes
    split
    · simp only [List.length_cons]
      omega
    · simp only [List.length_cons]
      omega

/-- Doubling lengthens a text that holds a single quote. -/
theorem doubleQuotes_length_lt (cs : List Char) (h : quoteChar ∈ cs) :
    cs.length < (doubleQuotes cs).length := by
  induction cs with
  | nil => simp at h
  | cons c cs ih =>
    unfold doubleQuotes
    split
    · have := doubleQuotes_length_le cs
      simp only [List.length_cons]
      omega
    · rename_i hc
      have hmem : quoteChar ∈ cs := by
        rcases List.mem_cons.mp h with heq | hin
        · exact absurd heq.symm hc
        · exact hin
      have := ih hmem
      simp only [List.length_cons]
      omega

/-- The text between single quotes is its SQL literal exactly when it holds no
single quote. -/
theorem quoted_eq_sqlLiteral_iff (s : String) :
    "'" ++ s ++ "'" = sqlLiteral s ↔ quoteChar ∉ s.data := by
  constructor
  · intro heq hmem
    have hlen := doubleQuotes_length_lt s.data hmem
    have hdata := congrArg (fun t : String => t.data.length) heq
    simp only [sqlLiteral, String.data_append, List.length_append] at hdata
    omega
  · intro hfree
    exact (sqlLiteral_of_not_mem s hfree).symm

/-- When every row scans, the loop appends one tuple per row, in row order. -/
theorem readRows_ok (ncols : Nat) (raws : List RawRow)
    (hl : ∀ raw ∈ raws, raw.length = ncols) (acc : List String) (h : List DbOp) :
    (readRows ncols (raws.map Except.ok) acc h).1 =
      .ok (acc ++ raws.map fun raw => rowTuple (raw.map scanNullStringPtr)) := by
  induction raws generalizing acc h with
  | nil => simp [readRows]
  | cons raw rest ih =>
    have h1 : raw.length = ncols := hl raw (by simp)
    have h2 : ∀ r ∈ rest, r.length = ncols := fun r hr => hl r (List.mem_cons_of_mem _ hr)
    simp only [List.map, readRows, h1, bne_self_eq_false, Bool.false_eq_true, if_false]
    rw [ih h2]
    simp

/-- The payload of a successful extraction: the tuples of the rows, joined by
commas, together with the answer of `rows.Err()`. -/
theorem createTableValues_ok (db : DB) (name : String) (h : List DbOp) (rows : Rows)
    (cols : List String) (raws : List RawRow)
    (hq : db.Query h ("SELECT * FROM " ++ name) = .ok rows)
    (hc : rows.columns = .ok cols) (hne : cols ≠ [])
    (hd : rows.data = raws.map Except.ok)
    (hl : ∀ raw ∈ raws, raw.length = cols.length) :
    (createTableValues db name h).1 =
      (stringsJoin (raws.map fun raw => rowTuple (raw.map scanNullStringPtr)) ",", rows.err) := by
  have hlen : (cols.length == 0) = false := by
    cases cols with
    | nil => exact absurd rfl hne
    | cons a as => simp
  have hr := readRows_ok cols.length raws hl [] (h ++ [DbOp.query ("SELECT * FROM " ++ name)] ++ [DbOp.columns])
  unfold createTableValues
  simp only [hq, hc, hlen, hd]
  generalize readRows cols.length (raws.map Except.ok) [] _ = res at hr ⊢
  obtain ⟨r1, r2⟩ := res
  simp only at hr
  subst hr
  simp

/-- The tuple literal of a scanned driver row. -/
theorem rowTuple_scanned (raw : RawRow) (hne : raw ≠ []) :
    rowTuple (raw.map scanNullStringPtr) =
      "(" ++ stringsJoin (raw.map fun c =>
        match c with
        | none => "''"
        | some s => "'" ++ s ++ "'") "," ++ ")" := by
  rw [rowTuple_eq _ (by simpa using hne)]
  congr 2
  simp only [dataStrings, List.map_map]
  congr 1
  apply List.map_congr_left
  intro c _
  cases c with
  | none => simp [scanNullStringPtr]
  | some s => simp [scanNullStringPtr]

/-- The payload of a successful extraction, field by field. -/
theorem createTableValues_fields (db : DB) (name : String) (h : List DbOp) (rows : Rows)
    (cols : List String) (raws : List RawRow)
    (hq : db.Query h ("SELECT * FROM " ++ name) = .ok rows)
    (hc : rows.columns = .ok cols) (hne : cols ≠ [])
    (hd : rows.data = raws.map Except.ok)
    (hl : ∀ raw ∈ raws, raw.length = cols.length) :
    (createTableValues db name h).1 =
        (stringsJoin (raws.map fun raw =>
          "(" ++ stringsJoin (raw.map fun c =>
            match c with
            | none => "''"
            | some s => "'" ++ s ++ "'") "," ++ ")") ",", rows.err) := by
  rw [createTableValues_ok db name h rows cols raws hq hc hne hd hl]
  congr 2
  apply List.map_congr_left
  intro raw hraw
  apply rowTuple_scanned
  intro hnil
  have := hl raw hraw
  rw [hnil] at this
  cases cols with
  | nil => exact hne rfl
  | cons a as => simp at this

/-- C2 (amended): for every row with at least one column, `createTableValues`
produces one tuple literal `(v1,v2,...)` with exactly one field per column in
column order; a value that is absent or whose validity flag is false is the
quoted empty string `''` (not the keyword NULL), a valid value is its text
between single quotes; the payload is the comma-joined list of these tuples in
row order. -/
theorem createTableValues_tuple_shape (db : DB) (name : String) (h : List DbOp) (rows : Rows)
    (cols : List String) (raws : List RawRow)
    (hq : db.Query h ("SELECT * FROM " ++ name) = .ok rows)
    (hc : rows.columns = .ok cols) (hne : cols ≠ [])
    (hd : rows.data = raws.map Except.ok)
    (hl : ∀ raw ∈ raws, raw.length = cols.length) :
    (createTableValues db name h).1 =
        (stringsJoin (raws.map fun raw =>
          "(" ++ stringsJoin (raw.map fun c =>
            match c with
            | none => "''"
            | some s => "'" ++ s ++ "'") "," ++ ")") ",", rows.err)
      ∧ (∀ raw ∈ raws, (raw.map scanNullStringPtr).length = cols.length)
      ∧ ∀ data : List (Option NullString), data ≠ [] →
          rowTuple data =
            "(" ++ stringsJoin (data.map fun value =>
              match value with
              | some v => if v.Valid then "'" ++ v.String ++ "'" else "''"
              | none => "''") "," ++ ")" := by
  refine ⟨?_, ?_, ?_⟩
  · exact createTableValues_fields db name h rows cols raws hq hc hne hd hl
  · intro raw hraw
    simpa using hl raw hraw
  · intro data hdata
    rw [rowTuple_eq data hdata]
    congr 2
    simp only [dataStrings, List.map_map]
    congr 1
    apply List.map_congr_left
    intro v _
    cases v with
    | none => simp
    | some ns =>
      cases hv : ns.Valid
      · simp [hv]
      · simp [hv]

/-- The rows `1, NULL, OBrien` and `2, Ann, NULL`, and a row with an invalid
non-nil value. -/
theorem createTableValues_tuple_shape_witness :
    (createTableValues (constDB [] peopleRows) "people" []).1 =
        ("('1','','OBrien'),('2','Ann','')", none)
      ∧ rowTuple [some ⟨"1", true⟩, some ⟨"x", false⟩, none] = "('1','','')" := by
  have hw := createTableValues_tuple_shape (constDB [] peopleRows) "people" [] peopleRows
    ["id", "name", "note"] [[some "1", none, some "OBrien"], [some "2", some "Ann", none]]
    rfl rfl (by decide) rfl (by decide)
  exact ⟨hw.1.trans (by decide), (hw.2.2 _ (by decide)).trans (by decide)⟩

/-- C2 (as stated) fails: a NULL column is written as the quoted empty string,
not as the keyword NULL. -/
theorem createTableValues_null_not_keyword :
    (createTableValues (constDB [] peopleRows) "people" []).1 =
        ("('1','','OBrien'),('2','Ann','')", none)
      ∧ (createTableValues (constDB [] peopleRows) "people" []).1 ≠
        ("('1',NULL,'OBrien'),('2','Ann',NULL)", none)
      ∧ rowTuple [none] = "('')"
      ∧ rowTuple [some ⟨"", false⟩] = "('')"
      ∧ rowTuple [none] ≠ "(NULL)" := by
  decide

/-- C1 (amended): for every row of column values read by `createTableValues`,
each valid value is written into the tuple literal as its text between single
quotes, unchanged, and a NULL value as `''`; an embedded single quote is not
doubled, so the field written for a value is its SQL literal (single quotes
escaped by doubling) exactly when the value contains no single quote; in
particular the row `1, NULL, O'Brien` serialises to exactly
`('1','','O'Brien')`. -/
theorem createTableValues_values_verbatim (db : DB) (name : String) (h : List DbOp)
    (rows : Rows) (cols : List String) (raws : List RawRow)
    (hq : db.Query h ("SELECT * FROM " ++ name) = .ok rows)
    (hc : rows.columns = .ok cols) (hne : cols ≠ [])
    (hd : rows.data = raws.map Except.ok)
    (hl : ∀ raw ∈ raws, raw.length = cols.length) :
    (createTableValues db name h).1 =
        (stringsJoin (raws.map fun raw =>
          "(" ++ stringsJoin (raw.map fun c =>
            match c with
            | none => "''"
            | some s => "'" ++ s ++ "'") "," ++ ")") ",", rows.err)
      ∧ (∀ s : String, "'" ++ s ++ "'" = sqlLiteral s ↔ quoteChar ∉ s.data)
      ∧ rowTuple [some ⟨"1", true⟩, none, some ⟨"O'Brien", true⟩] = "('1','','O'Brien')" :=
  ⟨createTableValues_fields db name h rows cols raws hq hc hne hd hl,
    quoted_eq_sqlLiteral_iff, by decide⟩

/-- The rows `1, NULL, O'Brien` and `2, Ann, NULL`: the row without single
quote is written with the SQL literals of its values, the other one is not. -/
theorem createTableValues_values_verbatim_witness :
    (createTableValues (constDB [] quotedPeopleRows) "people" []).1 =
        ("('1','','O'Brien'),('2','Ann','')", none)
      ∧ "'" ++ "Ann" ++ "'" = sqlLiteral "Ann"
      ∧ "'" ++ "O'Brien" ++ "'" ≠ sqlLiteral "O'Brien" := by
  have hw := createTableValues_values_verbatim (constDB [] quotedPeopleRows) "people" []
    quotedPeopleRows ["id", "name", "note"]
    [[some "1", none, some "O'Brien"], [some "2", some "Ann", none]]
    rfl rfl (by decide) rfl (by decide)
  exact ⟨hw.1.trans (by decide), (hw.2.1 "Ann").mpr (by decide),
    fun heq => (hw.2.1 "O'Brien").mp heq (by decide)⟩

/-- C1 (as stated) fails: the row `1, NULL, O'Brien` is written as
`('1','','O'Brien')`; the number is quoted, NULL is the quoted empty string and
the embedded single quote is not doubled. -/
theorem createTableValues_obrien_unescaped :
    (createTableValues (constDB [] obrienRows) "people" []).1 = ("('1','','O'Brien')", none)
      ∧ (createTableValues (constDB [] obrienRows) "people" []).1 ≠
          ("(1,NULL,'O''Brien')", none)
      ∧ sqlLiteral "O'Brien" = "'O''Brien'"
      ∧ rowTuple [some ⟨"O'Brien", true⟩] ≠ "(" ++ sqlLiteral "O'Brien" ++ ")" := by
  decide

/-! ## Schema and table extraction -/

/-- C9: when the `SHOW CREATE TABLE` query succeeds with the pair (echoed
name, creation statement), `createTableSQL` fails if and only if the echoed
name differs from the requested name; a failure returns the empty string and a
success returns exactly the creation statement of the database. -/
theorem createTableSQL_fails_iff_name_differs (db : DB) (name : String) (h : List DbOp)
    (echoed stmt : Option String)
    (hq : db.QueryRow h ("SHOW CREATE TABLE " ++ name) = .ok [echoed, stmt]) :
    ((createTableSQL db name h).1.2 ≠ none ↔ (scanNullString echoed).String ≠ name)
      ∧ ((createTableSQL db name h).1.2 ≠ none → (createTableSQL db name h).1.1 = "")
      ∧ ((createTableSQL db name h).1.2 = none →
          (createTableSQL db name h).1.1 = (scanNullString stmt).String) := by
  unfold createTableSQL
  simp only [hq]
  by_cases hn : (scanNullString echoed).String = name
  · simp [hn]
  · simp [hn]

/-- The database echoes `users`: asking for `users` succeeds, asking for
`orders` fails. -/
theorem createTableSQL_fails_iff_name_differs_witness :
    (createTableSQL (constDB [some "users", some "CREATE TABLE users (id int)"] peopleRows)
        "users" []).1 = ("CREATE TABLE users (id int)", none)
      ∧ (createTableSQL (constDB [some "users", some "CREATE TABLE users (id int)"] peopleRows)
        "orders" []).1.1 = "" := by
  have h1 := createTableSQL_fails_iff_name_differs
    (constDB [some "users", some "CREATE TABLE users (id int)"] peopleRows) "users" []
    (some "users") (some "CREATE TABLE users (id int)") rfl
  have h2 := createTableSQL_fails_iff_name_differs
    (constDB [some "users", some "CREATE TABLE users (id int)"] peopleRows) "orders" []
    (some "users") (some "CREATE TABLE users (id int)") rfl
  have hnone : (createTableSQL (constDB [some "users", some "CREATE TABLE users (id int)"]
      peopleRows) "users" []).1.2 = none := by
    by_contra hc
    exact (h1.1.mp hc) (by decide)
  refine ⟨Prod.ext (h1.2.2 hnone) hnone, h2.2.1 (h2.1.mpr (by decide))⟩

/-- The only operation of `createTableSQL` is its `QueryRow`. -/
theorem createTableSQL_history (db : DB) (name : String) (h : List DbOp) :
    (createTableSQL db name h).2 = h ++ [DbOp.queryRow ("SHOW CREATE TABLE " ++ name)] := by
  unfold createTableSQL
  dsimp only
  split
  · rfl
  · split <;> rfl
  · rfl

/-- C8: when the result set of a table reports zero columns,
`createTableValues` returns the error `No columns in table <name>.` with an
empty payload, whatever rows the cursor holds, and issues no `Next` or `Scan`
on the cursor (only `Query`, `Columns` and the deferred `Close`); `createTable`
then returns an error and no `Table`, and the loop that fills `data.Tables`
ends with that error instead of appending a record. -/
theorem createTableValues_zero_columns (db : DB) (name : String) (h : List DbOp) (rows : Rows)
    (hq : db.Query h ("SELECT * FROM " ++ name) = .ok rows)
    (hc : rows.columns = .ok []) :
    createTableValues db name h =
        (("", some (Error.new ("No columns in table " ++ name ++ "."))),
          h ++ [DbOp.query ("SELECT * FROM " ++ name), DbOp.columns, DbOp.close])
      ∧ (∀ h0 : List DbOp, h = h0 ++ [DbOp.queryRow ("SHOW CREATE TABLE " ++ name)] →
          ∃ e, (createTable db name h0).1 = .error e
            ∧ ∀ (rest : List String) (acc : List Table),
                (createTables db (name :: rest) acc h0).1 = .error e) := by
  have hv : createTableValues db name h =
      (("", some (Error.new ("No columns in table " ++ name ++ "."))),
        h ++ [DbOp.query ("SELECT * FROM " ++ name), DbOp.columns, DbOp.close]) := by
    unfold createTableValues
    simp [hq, hc]
  refine ⟨hv, ?_⟩
  intro h0 hh
  have hh1 : (createTableSQL db name h0).2 = h := by
    rw [hh, createTableSQL_history]
  have key : ∃ e, (createTable db name h0).1 = .error e := by
    unfold createTable
    rcases hs : createTableSQL db name h0 with ⟨⟨sql, _ | e⟩, h1⟩
    · have : h1 = h := by rw [← hh1, hs]
      subst this
      simp only [hv]
      exact ⟨_, rfl⟩
    · exact ⟨e, rfl⟩
  obtain ⟨e, he⟩ := key
  refine ⟨e, he, ?_⟩
  intro rest acc
  unfold createTables
  rcases hct : createTable db name h0 with ⟨_ | t, h1⟩
  · rw [hct] at he
    simp only at he
    cases he
    rfl
  · rw [hct] at he
    cases he

/-- A table `t` whose cursor reports no column and holds two rows. -/
theorem createTableValues_zero_columns_witness :
    createTableValues (constDB [some "t", some "CREATE TABLE t ()"] zeroColumnRows) "t"
        [DbOp.queryRow "SHOW CREATE TABLE t"] =
        (("", some (Error.new "No columns in table t.")),
          [DbOp.queryRow "SHOW CREATE TABLE t", DbOp.query "SELECT * FROM t", DbOp.columns,
            DbOp.close])
      ∧ ∃ e, (createTable (constDB [some "t", some "CREATE TABLE t ()"] zeroColumnRows)
          "t" []).1 = .error e := by
  have hw := createTableValues_zero_columns
    (constDB [some "t", some "CREATE TABLE t ()"] zeroColumnRows) "t"
    [DbOp.queryRow "SHOW CREATE TABLE t"] zeroColumnRows rfl rfl
  refine ⟨hw.1.trans (by decide), ?_⟩
  obtain ⟨e, he, _⟩ := hw.2 [] (by decide)
  exact ⟨e, he⟩

/-! ## The dump template -/

/-- The document rendered from `tmpl`: header, one block per table in the order
of `Tables`, footer. -/
theorem execute_tmpl (d : Dump) :
    execute tmpl d =
      "-- Go SQL Dump " ++ d.DumpVersion ++
        "\n--\n-- ------------------------------------------------------\n-- Server version\t" ++
        d.ServerVersion ++ "\n" ++ d.DbDrop ++ "\n\nUSE " ++ d.Database ++ ";\n" ++
        concatAll (d.Tables.map fun t => concatAll (tableTmpl.map (execTableNode t))) ++
        "\n-- Dump completed on " ++ d.CompleteTime ++ "\n" := by
  simp [execute, tmpl, execDumpNode, concatAll, String.append_assoc]

/-- The block of a table without data. -/
theorem tableTmpl_empty_values (t : Table) (hv : t.Values = "") :
    concatAll (tableTmpl.map (execTableNode t)) =
      "\n--\n-- Table structure for table " ++ t.Name ++
        "\n--\n\nDROP TABLE IF EXISTS " ++ t.Name ++ ";\n" ++ t.SQL ++ ";\n" := by
  simp [tableTmpl, execTableNode, execTableLeaf, concatAll, hv, String.append_assoc]

/-- The block of a table with data. -/
theorem tableTmpl_with_values (t : Table) (hv : t.Values ≠ "") :
    concatAll (tableTmpl.map (execTableNode t)) =
      "\n--\n-- Table structure for table " ++ t.Name ++
        "\n--\n\nDROP TABLE IF EXISTS " ++ t.Name ++ ";\n" ++ t.SQL ++ ";\n" ++
        "\n--\n-- Dumping data for table " ++ t.Name ++ "\n--\n\n" ++
        "LOCK TABLES " ++ t.Name ++ " WRITE;\n" ++
        "INSERT INTO " ++ t.Name ++ " VALUES " ++ t.Values ++ ";\n" ++
        "UNLOCK TABLES;\n" := by
  have h1 : "\n--\n\nLOCK TABLES " = "\n--\n\n" ++ "LOCK TABLES " := by decide
  have h2 : " WRITE;\nINSERT INTO " = " WRITE;\n" ++ "INSERT INTO " := by decide
  have h3 : ";\nUNLOCK TABLES;\n" = ";\n" ++ "UNLOCK TABLES;\n" := by decide
  simp only [tableTmpl, execTableNode, execTableLeaf, concatAll, List.map, bne_iff_ne, ne_eq, hv,
    not_false_eq_true, if_true, h1, h2, h3, String.append_assoc, String.append_empty]

/-- C4: for a table whose `SELECT` returns zero rows over at least one column,
`createTableValues` succeeds with the empty payload; the text rendered from
`tmpl` is the header, one block per table in order, and the footer; the block
of a table with an empty `Values` payload is exactly the comment, the
`DROP TABLE IF EXISTS <name>;` line and the creation statement, with no
`LOCK TABLES`, `INSERT INTO` or `UNLOCK TABLES` line, and the block of a table
with a non-empty payload continues with these three lines. -/
theorem empty_table_renders_without_insert_block :
    (∀ (db : DB) (name : String) (h : List DbOp) (rows : Rows) (cols : List String),
        db.Query h ("SELECT * FROM " ++ name) = .ok rows → rows.columns = .ok cols →
        cols ≠ [] → rows.data = [] → rows.err = none →
        (createTableValues db name h).1 = ("", none))
      ∧ (∀ d : Dump, execute tmpl d =
          "-- Go SQL Dump " ++ d.DumpVersion ++
            "\n--\n-- ------------------------------------------------------\n-- Server version\t" ++
            d.ServerVersion ++ "\n" ++ d.DbDrop ++ "\n\nUSE " ++ d.Database ++ ";\n" ++
            concatAll (d.Tables.map fun t => concatAll (tableTmpl.map (execTableNode t))) ++
            "\n-- Dump completed on " ++ d.CompleteTime ++ "\n")
      ∧ (∀ t : Table, t.Values = "" →
          concatAll (tableTmpl.map (execTableNode t)) =
            "\n--\n-- Table structure for table " ++ t.Name ++
              "\n--\n\nDROP TABLE IF EXISTS " ++ t.Name ++ ";\n" ++ t.SQL ++ ";\n")
      ∧ (∀ t : Table, t.Values ≠ "" →
          concatAll (tableTmpl.map (execTableNode t)) =
            "\n--\n-- Table structure for table " ++ t.Name ++
              "\n--\n\nDROP TABLE IF EXISTS " ++ t.Name ++ ";\n" ++ t.SQL ++ ";\n" ++
              "\n--\n-- Dumping data for table " ++ t.Name ++ "\n--\n\n" ++
              "LOCK TABLES " ++ t.Name ++ " WRITE;\n" ++
              "INSERT INTO " ++ t.Name ++ " VALUES " ++ t.Values ++ ";\n" ++
              "UNLOCK TABLES;\n") := by
  refine ⟨?_, execute_tmpl, tableTmpl_empty_values, tableTmpl_with_values⟩
  intro db name h rows cols hq hc hne hd he
  have := createTableValues_ok db name h rows cols [] hq hc hne (by simpa using hd) (by simp)
  rw [this, he]
  rfl

set_option maxRecDepth 100000 in
/-- A table `t` without row, and its block without and with data. -/
theorem empty_table_renders_without_insert_block_witness :
    (createTableValues (constDB [] emptyRows) "t" []).1 = ("", none)
      ∧ concatAll (tableTmpl.map (execTableNode ⟨"t", "CREATE TABLE t (id int)", ""⟩)) =
          "\n--\n-- Table structure for table t\n--\n\nDROP TABLE IF EXISTS t;\nCREATE TABLE t (id int);\n"
      ∧ concatAll (tableTmpl.map (execTableNode ⟨"t", "CREATE TABLE t (id int)", "('1')"⟩)) =
          "\n--\n-- Table structure for table t\n--\n\nDROP TABLE IF EXISTS t;\nCREATE TABLE t (id int);\n\n--\n-- Dumping data for table t\n--\n\nLOCK TABLES t WRITE;\nINSERT INTO t VALUES ('1');\nUNLOCK TABLES;\n" :=
  ⟨empty_table_renders_without_insert_block.1 (constDB [] emptyRows) "t" [] emptyRows ["id"]
      rfl rfl (by decide) rfl rfl,
    (empty_table_renders_without_insert_block.2.2.1 ⟨"t", "CREATE TABLE t (id int)", ""⟩
      rfl).trans (by decide),
    (empty_table_renders_without_insert_block.2.2.2 ⟨"t", "CREATE TABLE t (id int)", "('1')"⟩
      (by decide)).trans (by decide)⟩

/-! ## The `Dumper` entry points -/

/-- A table record carries the name it was asked for. -/
theorem createTable_name (db : DB) (name : String) (h h1 : List DbOp) (t : Table)
    (hc : createTable db name h = (.ok t, h1)) : t.Name = name := by
  unfold createTable at hc
  rcases hs : createTableSQL db name h with ⟨⟨sql, _ | e⟩, h2⟩
  · rw [hs] at hc
    dsimp only at hc
    rcases hv : createTableValues db name h2 with ⟨⟨values, _ | e⟩, h3⟩
    · rw [hv] at hc
      simp only [Prod.mk.injEq, Except.ok.injEq] at hc
      rw [← hc.1]
    · rw [hv] at hc
      simp at hc
  · rw [hs] at hc
    simp at hc

/-- A successful loop appends one record per name, in the order of the names. -/
theorem createTables_names (db : DB) (names : List String) (acc : List Table)
    (h h1 : List DbOp) (ts : List Table)
    (hc : createTables db names acc h = (.ok ts, h1)) :
    ts.map Table.Name = acc.map Table.Name ++ names := by
  induction names generalizing acc h with
  | nil =>
    simp only [createTables, Prod.mk.injEq, Except.ok.injEq] at hc
    simp [hc.1]
  | cons name rest ih =>
    unfold createTables at hc
    rcases ht : createTable db name h with ⟨e | t, h2⟩
    · rw [ht] at hc
      simp at hc
    · rw [ht] at hc
      have := ih (acc ++ [t]) h2 hc
      rw [this]
      simp [createTable_name db name h h2 t ht]

/-- The loop ends at the first failing table, with its error and its history. -/
theorem createTables_stops (db : DB) (pre : List String) (bad : String) (rest : List String)
    (acc : List Table) (h h1 h2 : List DbOp) (ts : List Table) (e : Error)
    (hpre : createTables db pre acc h = (.ok ts, h1))
    (hbad : createTable db bad h1 = (.error e, h2)) :
    createTables db (pre ++ bad :: rest) acc h = (.error e, h2) := by
  induction pre generalizing acc h with
  | nil =>
    simp only [createTables, Prod.mk.injEq, Except.ok.injEq] at hpre
    obtain ⟨_, rfl⟩ := hpre
    simp only [List.nil_append, createTables, hbad]
  | cons name pre ih =>
    unfold createTables at hpre
    rcases ht : createTable db name h with ⟨e1 | t, h3⟩
    · rw [ht] at hpre
      simp at hpre
    · rw [ht] at hpre
      have := ih (acc ++ [t]) h3 hpre
      simp only [List.cons_append, createTables, ht]
      exact this

/-- The listing loop appends one name per row, in row order. -/
theorem scanTables_ok (final : Option Error) (cells : List (Option String))
    (acc : List String) (h : List DbOp) :
    (scanTables final (cells.map fun c => Except.ok [c]) acc h).1 =
      (acc ++ cells.map fun c => (scanNullString c).String, final) := by
  induction cells generalizing acc h with
  | nil => simp [scanTables]
  | cons c rest ih =>
    simp only [List.map, scanTables]
    rw [ih]
    simp

/-- The names returned by `getTables` are those of the rows of `SHOW TABLES`, in
row order. -/
theorem getTables_order (db : DB) (h : List DbOp) (rows : Rows) (cells : List (Option String))
    (hq : db.Query h "SHOW TABLES" = .ok rows)
    (hd : rows.data = cells.map fun c => Except.ok [c]) :
    (getTables db h).1 = (cells.map fun c => (scanNullString c).String, rows.err) := by
  unfold getTables
  simp only [hq, hd]
  have := scanTables_ok rows.err cells [] (h ++ [DbOp.query "SHOW TABLES"])
  simpa using this

/-- A freshly created file is empty. -/
theorem osCreate_empty (fs fs1 : FS) (p : String) (hc : osCreate fs p = (none, fs1)) :
    fs1.files p = some "" := by
  unfold osCreate at hc
  cases hce : fs.createErr p with
  | some e => rw [hce] at hc; simp at hc
  | none =>
    rw [hce] at hc
    simp only [Prod.mk.injEq, true_and] at hc
    subst hc
    simp

/-- A failed `os.Create` leaves the file system unchanged. -/
theorem osCreate_failed (fs fs1 : FS) (p : String) (e : Error)
    (hc : osCreate fs p = (some e, fs1)) : fs1 = fs := by
  unfold osCreate at hc
  cases hce : fs.createErr p with
  | some e1 => rw [hce] at hc; simp only [Prod.mk.injEq] at hc; exact hc.2.symm
  | none => rw [hce] at hc; simp at hc

/-- A write without error to an empty file leaves exactly the text written. -/
theorem osWrite_ok (fs1 fs2 : FS) (p s : String) (he : fs1.files p = some "")
    (hw : osWrite fs1 p s = (none, fs2)) : fs2.files p = some s := by
  unfold osWrite at hw
  cases hwe : fs1.writeErr p with
  | none =>
    rw [hwe] at hw
    simp only [Prod.mk.injEq, true_and] at hw
    subst hw
    simp [he]
  | some ne =>
    obtain ⟨n, e⟩ := ne
    rw [hwe] at hw
    dsimp only at hw
    split at hw
    · simp only [Prod.mk.injEq, true_and] at hw
      subst hw
      simp [he]
    · simp at hw

/-- The end of `Dump` once the file is created and the server version, the
database name and the table listing are known. -/
theorem Dump_eq (env : Env) (db : DB) (d : Dumper) (fs fs1 : FS) (h h1 h2 h3 : List DbOp)
    (sv dbn : String) (tables : List String)
    (hex : existsFile fs (d.fileName env) = false)
    (hcr : osCreate fs (d.fileName env) = (none, fs1))
    (hsv : getServerVersion db h = ((sv, none), h1))
    (hdb : getDatabase db h1 = ((dbn, none), h2))
    (hgt : getTables db h2 = ((tables, none), h3)) :
    d.Dump env db fs h =
      match createTables db tables [] h3 with
      | (.error e, h4) => ((d.fileName env, some e), fs1, h4)
      | (.ok ts, h4) =>
        match osWrite fs1 (d.fileName env) (execute tmpl
            { DumpVersion := version, ServerVersion := sv, Tables := ts,
              CompleteTime := env.timeString, Database := dbn,
              DbDrop :=
                if d.DropDB then
                  "DROP DATABASE IF EXISTS " ++ dbn ++ ";\nCREATE DATABASE " ++ dbn ++
                    ";SET FOREIGN_KEY_CHECKS=0;"
                else "" }) with
        | (some e, fs2) => ((d.fileName env, some e), fs2, h4)
        | (none, fs2) => ((d.fileName env, none), fs2, h4) := by
  unfold Dumper.Dump
  simp only [hex, Bool.false_eq_true, if_false]
  rw [hcr]
  dsimp only
  rw [hsv]
  dsimp only
  rw [hdb]
  dsimp only
  rw [hgt]

/-- The end of `DumpTables` once the file is created and the server version and
the database name are known. -/
theorem DumpTables_eq (env : Env) (db : DB) (d : Dumper) (tables : List String) (fs fs1 : FS)
    (h h1 h2 : List DbOp) (sv dbn : String)
    (hex : existsFile fs (d.fileName env) = false)
    (hcr : osCreate fs (d.fileName env) = (none, fs1))
    (hsv : getServerVersion db h = ((sv, none), h1))
    (hdb : getDatabase db h1 = ((dbn, none), h2)) :
    d.DumpTables env db tables fs h =
      match createTables db tables [] h2 with
      | (.error e, h3) => ((d.fileName env, some e), fs1, h3)
      | (.ok ts, h3) =>
        match osWrite fs1 (d.fileName env) (execute tmpl
            { DumpVersion := version, ServerVersion := sv, Tables := ts,
              CompleteTime := env.timeString, Database := dbn, DbDrop := "" }) with
        | (some e, fs2) => ((d.fileName env, some e), fs2, h3)
        | (none, fs2) => ((d.fileName env, none), fs2, h3) := by
  unfold Dumper.DumpTables
  simp only [hex, Bool.false_eq_true, if_false]
  rw [hcr]
  dsimp only
  rw [hsv]
  dsimp only
  rw [hdb]

/-- The outcomes of `Dump`: either every table was extracted, and then a call
without error leaves the rendered document in the file; or the call fails
before the template is executed, with the file empty or untouched. -/
theorem Dump_outcome (env : Env) (db : DB) (d : Dumper) (fs : FS) (h : List DbOp) :
    ((∃ ts h1,
        createTables db (getTables db (getDatabase db (getServerVersion db h).2).2).1.1 []
          (getTables db (getDatabase db (getServerVersion db h).2).2).2 = (.ok ts, h1))
      ∧ ((d.Dump env db fs h).1.2 = none →
          ∃ data : Dump,
            data.Tables.map Table.Name =
                (getTables db (getDatabase db (getServerVersion db h).2).2).1.1
              ∧ (d.Dump env db fs h).2.1.files (d.fileName env) = some (execute tmpl data)))
    ∨ ((d.Dump env db fs h).1.2 ≠ none ∧
        ((d.Dump env db fs h).2.1.files (d.fileName env) = fs.files (d.fileName env)
          ∨ (d.Dump env db fs h).2.1.files (d.fileName env) = some "")) := by
  rcases hsv : getServerVersion db h with ⟨⟨sv, esv⟩, h1⟩
  rcases hdb : getDatabase db h1 with ⟨⟨dbn, edb⟩, h2⟩
  rcases hgt : getTables db h2 with ⟨⟨tables, egt⟩, h3⟩
  rcases hct : createTables db tables [] h3 with ⟨rct, h4⟩
  rcases hcr : osCreate fs (d.fileName env) with ⟨ecr, fs1⟩
  unfold Dumper.Dump
  cases hex : existsFile fs (d.fileName env)
  · simp only [hex, Bool.false_eq_true, if_false]
    rw [hcr]
    cases ecr with
    | some e =>
      right
      have := osCreate_failed fs fs1 _ e hcr
      subst this
      simp
    | none =>
      have hempty := osCreate_empty fs fs1 _ hcr
      dsimp only
      rw [hsv]
      cases esv with
      | some e => right; simp [hempty]
      | none =>
        dsimp only
        rw [hdb]
        cases edb with
        | some e => right; simp [hempty]
        | none =>
          dsimp only
          rw [hgt]
          cases egt with
          | some e => right; simp [hempty]
          | none =>
            dsimp only
            rw [hct]
            cases rct with
            | error e => right; simp [hempty]
            | ok ts =>
              left
              refine ⟨⟨ts, h4, rfl⟩, ?_⟩
              dsimp only
              rcases hw : osWrite fs1 (d.fileName env) (execute tmpl
                { DumpVersion := version, ServerVersion := sv, Tables := ts,
                  CompleteTime := env.timeString, Database := dbn,
                  DbDrop :=
                    if d.DropDB then
                      "DROP DATABASE IF EXISTS " ++ dbn ++ ";\nCREATE DATABASE " ++ dbn ++
                        ";SET FOREIGN_KEY_CHECKS=0;"
                    else "" }) with ⟨_ | e, fs2⟩
              · intro _
                refine ⟨_, ?_, osWrite_ok fs1 fs2 _ _ hempty hw⟩
                have := createTables_names db tables [] h3 h4 ts hct
                simpa using this
              · intro hno
                simp at hno
  · right
    simp [hex]

/-- The outcomes of `DumpTables`. -/
theorem DumpTables_outcome (env : Env) (db : DB) (d : Dumper) (tables : List String) (fs : FS)
    (h : List DbOp) :
    ((∃ ts h1,
        createTables db tables [] (getDatabase db (getServerVersion db h).2).2 = (.ok ts, h1))
      ∧ ((d.DumpTables env db tables fs h).1.2 = none →
          ∃ data : Dump,
            data.Tables.map Table.Name = tables
              ∧ (d.DumpTables env db tables fs h).2.1.files (d.fileName env) =
                  some (execute tmpl data)))
    ∨ ((d.DumpTables env db tables fs h).1.2 ≠ none ∧
        ((d.DumpTables env db tables fs h).2.1.files (d.fileName env) =
            fs.files (d.fileName env)
          ∨ (d.DumpTables env db tables fs h).2.1.files (d.fileName env) = some "")) := by
  rcases hsv : getServerVersion db h with ⟨⟨sv, esv⟩, h1⟩
  rcases hdb : getDatabase db h1 with ⟨⟨dbn, edb⟩, h2⟩
  rcases hct : createTables db tables [] h2 with ⟨rct, h4⟩
  rcases hcr : osCreate fs (d.fileName env) with ⟨ecr, fs1⟩
  unfold Dumper.DumpTables
  cases hex : existsFile fs (d.fileName env)
  · simp only [hex, Bool.false_eq_true, if_false]
    rw [hcr]
    cases ecr with
    | some e =>
      right
      have := osCreate_failed fs fs1 _ e hcr
      subst this
      simp
    | none =>
      have hempty := osCreate_empty fs fs1 _ hcr
      dsimp only
      rw [hsv]
      cases esv with
      | some e => right; simp [hempty]
      | none =>
        dsimp only
        rw [hdb]
        cases edb with
        | some e => right; simp [hempty]
        | none =>
          dsimp only
          rw [hct]
          cases rct with
          | error e => right; simp [hempty]
          | ok ts =>
            left
            refine ⟨⟨ts, h4, rfl⟩, ?_⟩
            dsimp only
            rcases hw : osWrite fs1 (d.fileName env) (execute tmpl
              { DumpVersion := version, ServerVersion := sv, Tables := ts,
                CompleteTime := env.timeString, Database := dbn, DbDrop := "" })
              with ⟨_ | e, fs2⟩
            · intro _
              refine ⟨_, ?_, osWrite_ok fs1 fs2 _ _ hempty hw⟩
              have := createTables_names db tables [] h2 h4 ts hct
              simpa using this
            · intro hno
              simp at hno
  · right
    simp [hex]

set_option maxRecDepth 100000 in
/-- A write that fails: `DumpTables` returns the error of `Execute` and leaves
the beginning of the document in the file. -/
theorem DumpTables_write_error :
    (shopDumper.DumpTables fixedEnv (shopDB []) ["orders"] fullFS []).1 =
        ("/tmp/shop.sql", some (Error.ext "no space left on device"))
      ∧ (shopDumper.DumpTables fixedEnv (shopDB []) ["orders"] fullFS []).2.1.files
          "/tmp/shop.sql" = some "-- Go SQL Dump 0.2.0" := by
  decide

/-- C10: when `Dump` (resp. `DumpTables`) succeeds, the `Tables` list handed to
the template has the names returned by `getTables` (resp. passed by the
caller), in the same order and with the same length; the rendered document is
the header, the blocks of the tables in that order, and the
`Dump completed on` footer; and `getTables` returns the names in the order of
the rows of `SHOW TABLES`, without sorting, deduplication or omission. -/
theorem dump_keeps_listing_order :
    (∀ (env : Env) (db : DB) (d : Dumper) (fs : FS) (h : List DbOp),
        (d.Dump env db fs h).1.2 = none →
        ∃ data : Dump,
          data.Tables.map Table.Name =
              (getTables db (getDatabase db (getServerVersion db h).2).2).1.1
            ∧ (d.Dump env db fs h).2.1.files (d.fileName env) = some (execute tmpl data))
      ∧ (∀ (env : Env) (db : DB) (d : Dumper) (tables : List String) (fs : FS) (h : List DbOp),
        (d.DumpTables env db tables fs h).1.2 = none →
        ∃ data : Dump,
          data.Tables.map Table.Name = tables
            ∧ (d.DumpTables env db tables fs h).2.1.files (d.fileName env) =
                some (execute tmpl data))
      ∧ (∀ d : Dump, execute tmpl d =
          "-- Go SQL Dump " ++ d.DumpVersion ++
            "\n--\n-- ------------------------------------------------------\n-- Server version\t" ++
            d.ServerVersion ++ "\n" ++ d.DbDrop ++ "\n\nUSE " ++ d.Database ++ ";\n" ++
            concatAll (d.Tables.map fun t => concatAll (tableTmpl.map (execTableNode t))) ++
            "\n-- Dump completed on " ++ d.CompleteTime ++ "\n")
      ∧ (∀ (db : DB) (h : List DbOp) (rows : Rows) (cells : List (Option String)),
          db.Query h "SHOW TABLES" = .ok rows →
          (rows.data = cells.map fun c => Except.ok [c]) →
          (getTables db h).1 = (cells.map fun c => (scanNullString c).String, rows.err)) := by
  refine ⟨?_, ?_, execute_tmpl, getTables_order⟩
  · intro env db d fs h hok
    rcases Dump_outcome env db d fs h with ⟨_, hdata⟩ | ⟨hne, _⟩
    · exact hdata hok
    · exact absurd hok hne
  · intro env db d tables fs h hok
    rcases DumpTables_outcome env db d tables fs h with ⟨_, hdata⟩ | ⟨hne, _⟩
    · exact hdata hok
    · exact absurd hok hne

/-- The database `shop` listing `users, orders`, and a caller asking for
`orders, users, orders`. -/
theorem dump_keeps_listing_order_witness :
    (∃ data : Dump, data.Tables.map Table.Name = ["users", "orders"]
        ∧ (shopDumper.Dump fixedEnv (shopDB ["users", "orders"]) emptyFS []).2.1.files
            "/tmp/shop.sql" = some (execute tmpl data))
      ∧ (∃ data : Dump, data.Tables.map Table.Name = ["orders", "users", "orders"]
        ∧ (shopDumper.DumpTables fixedEnv (shopDB []) ["orders", "users", "orders"]
            emptyFS []).2.1.files "/tmp/shop.sql" = some (execute tmpl data))
      ∧ (getTables (shopDB ["users", "orders"]) []).1 = (["users", "orders"], none) :=
  ⟨dump_keeps_listing_order.1 fixedEnv (shopDB ["users", "orders"]) shopDumper emptyFS []
      (by decide),
    dump_keeps_listing_order.2.1 fixedEnv (shopDB []) shopDumper ["orders", "users", "orders"]
      emptyFS [] (by decide),
    dump_keeps_listing_order.2.2.2 (shopDB ["users", "orders"]) []
      { columns := .ok ["Tables_in_shop"],
        data := ["users", "orders"].map fun t => .ok [some t], err := none }
      [some "users", some "orders"] rfl rfl⟩

/-- C7: in `Dump` and `DumpTables`, when the extraction of the tables before
`bad` succeeds and `createTable` fails on `bad`, the call returns that same
error, the history of database operations ends with the failed extraction (no
later table is touched), and the output file is the empty file that
`os.Create` left, so it holds no `Dump completed on` footer; and whenever the
call leaves in the output file anything else than what the path held before or
the empty file, every table of the list was extracted successfully: the
template is executed only then. -/
theorem dump_stops_at_first_failing_table :
    (∀ (env : Env) (db : DB) (d : Dumper) (fs fs1 : FS) (h h1 h2 h3 h4 h5 : List DbOp)
        (sv dbn : String) (pre : List String) (bad : String) (rest : List String)
        (ts : List Table) (e : Error),
        existsFile fs (d.fileName env) = false →
        osCreate fs (d.fileName env) = (none, fs1) →
        getServerVersion db h = ((sv, none), h1) →
        getDatabase db h1 = ((dbn, none), h2) →
        getTables db h2 = ((pre ++ bad :: rest, none), h3) →
        createTables db pre [] h3 = (.ok ts, h4) →
        createTable db bad h4 = (.error e, h5) →
        d.Dump env db fs h = ((d.fileName env, some e), fs1, h5)
          ∧ fs1.files (d.fileName env) = some "")
      ∧ (∀ (env : Env) (db : DB) (d : Dumper) (fs fs1 : FS) (h h1 h2 h4 h5 : List DbOp)
        (sv dbn : String) (pre : List String) (bad : String) (rest : List String)
        (ts : List Table) (e : Error),
        existsFile fs (d.fileName env) = false →
        osCreate fs (d.fileName env) = (none, fs1) →
        getServerVersion db h = ((sv, none), h1) →
        getDatabase db h1 = ((dbn, none), h2) →
        createTables db pre [] h2 = (.ok ts, h4) →
        createTable db bad h4 = (.error e, h5) →
        d.DumpTables env db (pre ++ bad :: rest) fs h = ((d.fileName env, some e), fs1, h5)
          ∧ fs1.files (d.fileName env) = some "")
      ∧ (∀ (env : Env) (db : DB) (d : Dumper) (fs : FS) (h : List DbOp),
        (d.Dump env db fs h).2.1.files (d.fileName env) ≠ fs.files (d.fileName env) →
        (d.Dump env db fs h).2.1.files (d.fileName env) ≠ some "" →
        ∃ ts h1,
          createTables db (getTables db (getDatabase db (getServerVersion db h).2).2).1.1 []
            (getTables db (getDatabase db (getServerVersion db h).2).2).2 = (.ok ts, h1))
      ∧ (∀ (env : Env) (db : DB) (d : Dumper) (tables : List String) (fs : FS) (h : List DbOp),
        (d.DumpTables env db tables fs h).2.1.files (d.fileName env) ≠
            fs.files (d.fileName env) →
        (d.DumpTables env db tables fs h).2.1.files (d.fileName env) ≠ some "" →
        ∃ ts h1,
          createTables db tables [] (getDatabase db (getServerVersion db h).2).2 =
            (.ok ts, h1)) := by
  refine ⟨?_, ?_, ?_, ?_⟩
  · intro env db d fs fs1 h h1 h2 h3 h4 h5 sv dbn pre bad rest ts e hex hcr hsv hdb hgt hpre hbad
    rw [Dump_eq env db d fs fs1 h h1 h2 h3 sv dbn _ hex hcr hsv hdb hgt,
      createTables_stops db pre bad rest [] h3 h4 h5 ts e hpre hbad]
    exact ⟨rfl, osCreate_empty fs fs1 _ hcr⟩
  · intro env db d fs fs1 h h1 h2 h4 h5 sv dbn pre bad rest ts e hex hcr hsv hdb hpre hbad
    rw [DumpTables_eq env db d _ fs fs1 h h1 h2 sv dbn hex hcr hsv hdb,
      createTables_stops db pre bad rest [] h2 h4 h5 ts e hpre hbad]
    exact ⟨rfl, osCreate_empty fs fs1 _ hcr⟩
  · intro env db d fs h hold hempty
    rcases Dump_outcome env db d fs h with ⟨hok, _⟩ | ⟨_, hfile | hfile⟩
    · exact hok
    · exact absurd hfile hold
    · exact absurd hfile hempty
  · intro env db d tables fs h hold hempty
    rcases DumpTables_outcome env db d tables fs h with ⟨hok, _⟩ | ⟨_, hfile | hfile⟩
    · exact hok
    · exact absurd hfile hold
    · exact absurd hfile hempty

set_option maxRecDepth 100000 in
/-- The database `shop` listing `users, missing_table, orders`: the dump ends
with the error of `missing_table`, `orders` is never queried and the file is
empty; and two dumps that leave text in the file, one of them cut short by a
failing write. -/
theorem dump_stops_at_first_failing_table_witness :
    (shopDumper.Dump fixedEnv (shopDB ["users", "missing_table", "orders"]) emptyFS []).1 =
        ("/tmp/shop.sql", some (Error.ext "table does not exist"))
      ∧ (shopDumper.Dump fixedEnv (shopDB ["users", "missing_table", "orders"])
          emptyFS []).2.1.files "/tmp/shop.sql" = some ""
      ∧ (shopDumper.Dump fixedEnv (shopDB ["users", "missing_table", "orders"]) emptyFS []).2.2 =
          [DbOp.queryRow "SELECT version()", DbOp.queryRow "SELECT database()",
            DbOp.query "SHOW TABLES", DbOp.next, DbOp.scan, DbOp.next, DbOp.scan, DbOp.next,
            DbOp.scan, DbOp.next, DbOp.err, DbOp.close,
            DbOp.queryRow "SHOW CREATE TABLE users", DbOp.query "SELECT * FROM users",
            DbOp.columns, DbOp.next, DbOp.scan, DbOp.next, DbOp.scan, DbOp.next, DbOp.err,
            DbOp.close, DbOp.queryRow "SHOW CREATE TABLE missing_table"]
      ∧ (shopDumper.DumpTables fixedEnv (shopDB []) ["missing_table", "orders"] emptyFS []).1 =
        ("/tmp/shop.sql", some (Error.ext "table does not exist"))
      ∧ (∃ ts h1, createTables (shopDB ["users", "orders"]) ["users", "orders"] []
          (getTables (shopDB ["users", "orders"])
            [DbOp.queryRow "SELECT version()", DbOp.queryRow "SELECT database()"]).2 =
          (.ok ts, h1))
      ∧ (∃ ts h1, createTables (shopDB []) ["orders", "users"] []
          [DbOp.queryRow "SELECT version()", DbOp.queryRow "SELECT database()"] =
          (.ok ts, h1)) := by
  have hw := dump_stops_at_first_failing_table.1 fixedEnv
    (shopDB ["users", "missing_table", "orders"]) shopDumper emptyFS
    (osCreate emptyFS "/tmp/shop.sql").2 []
    [DbOp.queryRow "SELECT version()"]
    [DbOp.queryRow "SELECT version()", DbOp.queryRow "SELECT database()"]
    (getTables (shopDB ["users", "missing_table", "orders"])
      [DbOp.queryRow "SELECT version()", DbOp.queryRow "SELECT database()"]).2
    (createTables (shopDB ["users", "missing_table", "orders"]) ["users"] []
      (getTables (shopDB ["users", "missing_table", "orders"])
        [DbOp.queryRow "SELECT version()", DbOp.queryRow "SELECT database()"]).2).2
    [DbOp.queryRow "SELECT version()", DbOp.queryRow "SELECT database()",
      DbOp.query "SHOW TABLES", DbOp.next, DbOp.scan, DbOp.next, DbOp.scan, DbOp.next,
      DbOp.scan, DbOp.next, DbOp.err, DbOp.close,
      DbOp.queryRow "SHOW CREATE TABLE users", DbOp.query "SELECT * FROM users",
      DbOp.columns, DbOp.next, DbOp.scan, DbOp.next, DbOp.scan, DbOp.next, DbOp.err,
      DbOp.close, DbOp.queryRow "SHOW CREATE TABLE missing_table"]
    "8.0.30" "shop" ["users"] "missing_table" ["orders"]
    [{ Name := "users", SQL := "CREATE TABLE users (id int, name text, note text)",
       Values := "('1','','OBrien'),('2','Ann','')" }]
    (Error.ext "table does not exist")
    rfl rfl rfl rfl rfl rfl rfl
  have hw2 := dump_stops_at_first_failing_table.2.1 fixedEnv (shopDB []) shopDumper emptyFS
    (osCreate emptyFS "/tmp/shop.sql").2 []
    [DbOp.queryRow "SELECT version()"]
    [DbOp.queryRow "SELECT version()", DbOp.queryRow "SELECT database()"]
    [DbOp.queryRow "SELECT version()", DbOp.queryRow "SELECT database()"]
    [DbOp.queryRow "SELECT version()", DbOp.queryRow "SELECT database()",
      DbOp.queryRow "SHOW CREATE TABLE missing_table"]
    "8.0.30" "shop" [] "missing_table" ["orders"] []
    (Error.ext "table does not exist")
    rfl rfl rfl rfl rfl rfl
  have hw3 := dump_stops_at_first_failing_table.2.2.1 fixedEnv (shopDB ["users", "orders"])
    shopDumper emptyFS [] (by decide) (by decide)
  have hw4 := dump_stops_at_first_failing_table.2.2.2 fixedEnv (shopDB []) shopDumper
    ["orders", "users"] fullFS [] (by decide) (by decide)
  refine ⟨?_, ?_, ?_, ?_, hw3, hw4⟩
  · rw [hw.1]
    rfl
  · rw [hw.1]
    exact hw.2
  · rw [hw.1]
  · exact (congrArg Prod.fst hw2.1).trans rfl

/-! ## Destination collision -/

/-- C3 (failing input): with `gzipdump` true, `Register` tests the path it was
given but creates that path with `.gz` appended; here `/backup/shop.sql.gz`
exists before the call, the call succeeds, and the file is truncated. -/
theorem Register_gzip_truncates_existing_file :
    existsFile gzFS "/backup/shop.sql.gz" = true
      ∧ gzFS.files "/backup/shop.sql.gz" = some "previous dump"
      ∧ (Register fixedEnv gzFS true ["/backup/shop.sql"]).1.2 = ("/backup/shop.sql.gz", none)
      ∧ (Register fixedEnv gzFS true ["/backup/shop.sql"]).2.files "/backup/shop.sql.gz" =
          some "" := by
  decide

/-- Without gzip, `Register` refuses an existing path and changes nothing. -/
theorem Register_plain_no_overwrite (env : Env) (fs : FS) (a : List String)
    (hex : existsFile fs (registerPath env a) = true) :
    (Register env fs false a).1.2.2 ≠ none ∧ (Register env fs false a).2 = fs := by
  unfold Register
  simp [hex]

/-- An existing path makes `Dump` fail and changes nothing. -/
theorem Dump_no_overwrite (env : Env) (db : DB) (d : Dumper) (fs : FS) (h : List DbOp)
    (hex : existsFile fs (d.fileName env) = true) :
    (d.Dump env db fs h).1.2 ≠ none ∧ (d.Dump env db fs h).2.1 = fs := by
  unfold Dumper.Dump
  simp [hex]

/-- An existing path makes `DumpTables` fail and changes nothing. -/
theorem DumpTables_no_overwrite (env : Env) (db : DB) (d : Dumper) (tables : List String)
    (fs : FS) (h : List DbOp) (hex : existsFile fs (d.fileName env) = true) :
    (d.DumpTables env db tables fs h).1.2 ≠ none ∧ (d.DumpTables env db tables fs h).2.1 = fs := by
  unfold Dumper.DumpTables
  simp [hex]

/-- An existing path makes `PumpNew` fail and changes nothing. -/
theorem PumpNew_no_overwrite (env : Env) (fs : FS) (dbName name : String)
    (hex : existsFile fs (pumpName env name) = true) :
    (PumpNew env fs dbName name).1.2.2 ≠ none ∧ (PumpNew env fs dbName name).2 = fs := by
  unfold PumpNew
  simp [hex]

/-! ## `Pump` -/

/-- The table loop of `Pump` only appends operations, none of which is `begin`
or `rollback`. -/
theorem pumpTables_trace (env : PumpEnv) (tables : List String) (h : List PumpOp) :
    ∃ mid, (pumpTables env tables h).2 = h ++ mid
      ∧ PumpOp.begin ∉ mid ∧ PumpOp.rollback ∉ mid := by
  induction tables generalizing h with
  | nil => exact ⟨[], by simp [pumpTables]⟩
  | cons t rest ih =>
    unfold pumpTables
    dsimp only
    cases env.zipCreate h (t ++ ".sql") with
    | some e => exact ⟨[PumpOp.zipCreate (t ++ ".sql")], by simp⟩
    | none =>
      dsimp only
      cases env.dump (h ++ [PumpOp.zipCreate (t ++ ".sql")]) (t ++ ".sql") with
      | some e =>
        exact ⟨[PumpOp.zipCreate (t ++ ".sql"), PumpOp.dump (t ++ ".sql")], by simp⟩
      | none =>
        dsimp only
        cases env.zipFlush
            (h ++ [PumpOp.zipCreate (t ++ ".sql")] ++ [PumpOp.dump (t ++ ".sql")]) with
        | some e =>
          exact ⟨[PumpOp.zipCreate (t ++ ".sql"), PumpOp.dump (t ++ ".sql"), PumpOp.zipFlush],
            by simp⟩
        | none =>
          dsimp only
          obtain ⟨mid, hmid, hb, hr⟩ := ih
            (h ++ [PumpOp.zipCreate (t ++ ".sql")] ++ [PumpOp.dump (t ++ ".sql")] ++
              [PumpOp.zipFlush])
          refine ⟨[PumpOp.zipCreate (t ++ ".sql"), PumpOp.dump (t ++ ".sql"),
            PumpOp.zipFlush] ++ mid, ?_, ?_, ?_⟩
          · rw [hmid]
            simp
          · simpa using hb
          · simpa using hr

/-- The body of `Pump` only appends operations, none of which is `begin` or
`rollback`. -/
theorem pumpBody_trace (env : PumpEnv) (h : List PumpOp) :
    ∃ mid, (pumpBody env h).2 = h ++ mid
      ∧ PumpOp.begin ∉ mid ∧ PumpOp.rollback ∉ mid := by
  unfold pumpBody
  dsimp only
  cases env.updateServerVersion h with
  | some e => exact ⟨[PumpOp.updateServerVersion], by simp⟩
  | none =>
    dsimp only
    cases env.headerExecute (h ++ [PumpOp.updateServerVersion]) with
    | some e => exact ⟨[PumpOp.updateServerVersion, PumpOp.headerExecute], by simp⟩
    | none =>
      dsimp only
      rcases env.getTables (h ++ [PumpOp.updateServerVersion] ++ [PumpOp.headerExecute])
        with ⟨tables, _ | e⟩
      · dsimp only
        obtain ⟨mid, hmid, hb, hr⟩ := pumpTables_trace env tables
          (h ++ [PumpOp.updateServerVersion] ++ [PumpOp.headerExecute] ++ [PumpOp.getTables])
        rcases hp : pumpTables env tables
          (h ++ [PumpOp.updateServerVersion] ++ [PumpOp.headerExecute] ++ [PumpOp.getTables])
          with ⟨_ | e, h4⟩
        · rw [hp] at hmid
          dsimp only at hmid ⊢
          refine ⟨[PumpOp.updateServerVersion, PumpOp.headerExecute, PumpOp.getTables] ++ mid ++
            [PumpOp.pumpClose], ?_, ?_, ?_⟩
          · rw [hmid]
            simp
          · simpa using hb
          · simpa using hr
        · rw [hp] at hmid
          dsimp only at hmid ⊢
          refine ⟨[PumpOp.updateServerVersion, PumpOp.headerExecute, PumpOp.getTables] ++ mid,
            ?_, ?_, ?_⟩
          · rw [hmid]
            simp
          · simpa using hb
          · simpa using hr
      · exact ⟨[PumpOp.updateServerVersion, PumpOp.headerExecute, PumpOp.getTables], by simp⟩

/-- C6: if `begin` fails, `Pump` returns that error and `begin` is the only
operation it issues; if `begin` succeeds, the operations issued are `begin`,
then operations among which there is neither `begin` nor `rollback`, then
`rollback` as the last one, whatever the body returns (success or error). -/
theorem Pump_rollback_brackets_body (env : PumpEnv) (h : List PumpOp) :
    (∀ e, env.begin h = some e → Pump env h = (some e, h ++ [PumpOp.begin]))
      ∧ (env.begin h = none →
          ∃ mid, (Pump env h).2 = h ++ PumpOp.begin :: mid ++ [PumpOp.rollback]
            ∧ PumpOp.begin ∉ mid ∧ PumpOp.rollback ∉ mid
            ∧ (Pump env h).1 = (pumpBody env (h ++ [PumpOp.begin])).1) := by
  constructor
  · intro e he
    simp [Pump, he]
  · intro hb
    obtain ⟨mid, hmid, h1, h2⟩ := pumpBody_trace env (h ++ [PumpOp.begin])
    refine ⟨mid, ?_, h1, h2, ?_⟩
    · simp [Pump, hb, hmid]
    · simp [Pump, hb]

/-- A connection that refuses the transaction, and a run in which nothing
fails. -/
theorem Pump_rollback_brackets_body_witness :
    Pump noBeginPumpEnv [] = (some (Error.ext "connection refused"), [PumpOp.begin])
      ∧ ∃ mid, (Pump (okPumpEnv ["users"]) []).2 = [] ++ PumpOp.begin :: mid ++ [PumpOp.rollback]
          ∧ PumpOp.begin ∉ mid ∧ PumpOp.rollback ∉ mid
          ∧ (Pump (okPumpEnv ["users"]) []).1 =
              (pumpBody (okPumpEnv ["users"]) ([] ++ [PumpOp.begin])).1 :=
  ⟨(Pump_rollback_brackets_body noBeginPumpEnv []).1 _ rfl,
    (Pump_rollback_brackets_body (okPumpEnv ["users"]) []).2 rfl⟩

/-- C5 (failing input): for the listing `users, orders` a successful `Pump`
creates the members `users.sql` and `orders.sql` in that order, but the
per-table dump is invoked with the member name (`users.sql`, `orders.sql`) and
never with the table name. -/
theorem Pump_dumps_member_name :
    Pump (okPumpEnv ["users", "orders"]) [] =
        (none,
          [PumpOp.begin, PumpOp.updateServerVersion, PumpOp.headerExecute, PumpOp.getTables,
            PumpOp.zipCreate "users.sql", PumpOp.dump "users.sql", PumpOp.zipFlush,
            PumpOp.zipCreate "orders.sql", PumpOp.dump "orders.sql", PumpOp.zipFlush,
            PumpOp.pumpClose, PumpOp.rollback])
      ∧ PumpOp.dump "users" ∉ (Pump (okPumpEnv ["users", "orders"]) []).2
      ∧ PumpOp.dump "orders" ∉ (Pump (okPumpEnv ["users", "orders"]) []).2 := by
  decide

end Mysqldump
